import Mathlib

/-!
Verification of the configuration-aware field-table schema in
`src/coreclr/gc/gc_typefields.h`.

The source file is a preprocessor X-macro sequence: twelve unconditional
field declarations, then a block guarded by
`defined(ALL_FIELDS) || defined(BACKGROUND_GC)` containing four field
declarations and a nested block guarded by
`defined(ALL_FIELDS) || !defined(USE_REGIONS)` with two field declarations;
each suppressed branch emits `DEFINE_MISSING_FIELD` placeholders, one per
suppressed declaration.  We embed the expansion of that file as a function
from the three configuration switches to the ordered list of emitted
descriptors.
-/

/-- One emitted schema slot, mirroring the four X-macros of the source:
`DEFINE_FIELD(name, type)`, `DEFINE_DPTR_FIELD(name, schema)`,
`DEFINE_ARRAY_FIELD(name, type, extent)` and `DEFINE_MISSING_FIELD`.
The array extent is kept as the literal token of the source (a named
constant such as `NUM_GC_DATA_POINTS`). -/
inductive FieldDescriptor where
  | field (name : String) (elementType : String)
  | dptrField (name : String) (referencedSchema : String)
  | arrayField (name : String) (elementType : String) (extent : String)
  | missingField
deriving DecidableEq, Repr

/-- The three build switches of the source file:
`fullSchema` is `ALL_FIELDS`, `backgroundCollectionSupport` is
`BACKGROUND_GC`, `regionBasedHeap` is `USE_REGIONS`. -/
structure Configuration where
  fullSchema : Bool
  backgroundCollectionSupport : Bool
  regionBasedHeap : Bool
deriving DecidableEq, Repr

/-- The expansion of `gc_typefields.h` under a resolved configuration:
the twelve unconditional declarations, then the
`#if defined(ALL_FIELDS) || defined(BACKGROUND_GC)` block whose enabled
branch holds four fields and the nested
`#if defined(ALL_FIELDS) || !defined(USE_REGIONS)` conditional (two fields
or two `DEFINE_MISSING_FIELD`), and whose suppressed branch holds six
`DEFINE_MISSING_FIELD` placeholders. -/
def gc_typefields (cfg : Configuration) : List FieldDescriptor :=
  [ FieldDescriptor.field "alloc_allocated" "uint8_t*",
    FieldDescriptor.dptrField "ephemeral_heap_segment" "dac_heap_segment",
    FieldDescriptor.dptrField "finalize_queue" "dac_finalize_queue",
    FieldDescriptor.field "oom_info" "oom_history",
    FieldDescriptor.arrayField "interesting_data_per_heap" "size_t" "NUM_GC_DATA_POINTS",
    FieldDescriptor.arrayField "compact_reasons_per_heap" "size_t" "MAX_COMPACT_REASONS_COUNT",
    FieldDescriptor.arrayField "expand_mechanisms_per_heap" "size_t" "MAX_EXPAND_MECHANISMS_COUNT",
    FieldDescriptor.arrayField "interesting_mechanism_bits_per_heap" "size_t" "MAX_GC_MECHANISM_BITS_COUNT",
    FieldDescriptor.field "internal_root_array" "uint8_t*",
    FieldDescriptor.field "internal_root_array_index" "size_t",
    FieldDescriptor.field "heap_analyze_success" "BOOL",
    FieldDescriptor.field "card_table" "uint32_t*" ]
  ++ (if cfg.fullSchema || cfg.backgroundCollectionSupport then
        [ FieldDescriptor.field "mark_array" "uint32_t*",
          FieldDescriptor.field "next_sweep_obj" "uint8_t*",
          FieldDescriptor.field "background_saved_lowest_address" "uint8_t*",
          FieldDescriptor.field "background_saved_highest_address" "uint8_t*" ]
        ++ (if cfg.fullSchema || !cfg.regionBasedHeap then
              [ FieldDescriptor.dptrField "saved_sweep_ephemeral_seg" "dac_heap_segment",
                FieldDescriptor.field "saved_sweep_ephemeral_start" "uint8_t*" ]
            else
              [ FieldDescriptor.missingField,
                FieldDescriptor.missingField ])
      else
        [ FieldDescriptor.missingField,
          FieldDescriptor.missingField,
          FieldDescriptor.missingField,
          FieldDescriptor.missingField,
          FieldDescriptor.missingField,
          FieldDescriptor.missingField ])

/-- The symbolic name of a real descriptor; `none` for a placeholder. -/
def fieldName : FieldDescriptor → Option String
  | FieldDescriptor.field n _ => some n
  | FieldDescriptor.dptrField n _ => some n
  | FieldDescriptor.arrayField n _ _ => some n
  | FieldDescriptor.missingField => none

/-- The name of the real field found at ordinal `i` of the table assembled
under `cfg`; `none` when the slot is a placeholder or out of range. -/
def realNameAt (cfg : Configuration) (i : Nat) : Option String :=
  ((gc_typefields cfg).get? i).bind fieldName

/-- A source declaration together with the configuration predicate under
which it is real, as described by the Field Table Assembler contract. -/
structure Declaration where
  guard : Configuration → Bool
  descriptor : FieldDescriptor

/-- Modelled from the spec: the Field Table Assembler's per-declaration
emission rule (spec section 4.2, steps 2-4) — evaluate the declaration's
guarding predicate against the resolved configuration, and emit the real
descriptor when it holds, otherwise exactly one placeholder. -/
def emitDescriptor (cfg : Configuration) (d : Declaration) : FieldDescriptor :=
  if d.guard cfg then d.descriptor else FieldDescriptor.missingField

/-- Modelled from the spec: the fixed, source-ordered declaration sequence
with each declaration tagged by its guarding predicate (spec section 4.2) —
the twelve unconditional declarations guard-true, the four
background-block declarations guarded by `fullSchema or
backgroundCollectionSupport`, and the two nested declarations guarded by
the conjunction of the outer guard with `fullSchema or not regionBasedHeap`. -/
def assemblerDeclarations : List Declaration :=
  [ ⟨fun _ => true, FieldDescriptor.field "alloc_allocated" "uint8_t*"⟩,
    ⟨fun _ => true, FieldDescriptor.dptrField "ephemeral_heap_segment" "dac_heap_segment"⟩,
    ⟨fun _ => true, FieldDescriptor.dptrField "finalize_queue" "dac_finalize_queue"⟩,
    ⟨fun _ => true, FieldDescriptor.field "oom_info" "oom_history"⟩,
    ⟨fun _ => true, FieldDescriptor.arrayField "interesting_data_per_heap" "size_t" "NUM_GC_DATA_POINTS"⟩,
    ⟨fun _ => true, FieldDescriptor.arrayField "compact_reasons_per_heap" "size_t" "MAX_COMPACT_REASONS_COUNT"⟩,
    ⟨fun _ => true, FieldDescriptor.arrayField "expand_mechanisms_per_heap" "size_t" "MAX_EXPAND_MECHANISMS_COUNT"⟩,
    ⟨fun _ => true, FieldDescriptor.arrayField "interesting_mechanism_bits_per_heap" "size_t" "MAX_GC_MECHANISM_BITS_COUNT"⟩,
    ⟨fun _ => true, FieldDescriptor.field "internal_root_array" "uint8_t*"⟩,
    ⟨fun _ => true, FieldDescriptor.field "internal_root_array_index" "size_t"⟩,
    ⟨fun _ => true, FieldDescriptor.field "heap_analyze_success" "BOOL"⟩,
    ⟨fun _ => true, FieldDescriptor.field "card_table" "uint32_t*"⟩,
    ⟨fun c => c.fullSchema || c.backgroundCollectionSupport,
      FieldDescriptor.field "mark_array" "uint32_t*"⟩,
    ⟨fun c => c.fullSchema || c.backgroundCollectionSupport,
      FieldDescriptor.field "next_sweep_obj" "uint8_t*"⟩,
    ⟨fun c => c.fullSchema || c.backgroundCollectionSupport,
      FieldDescriptor.field "background_saved_lowest_address" "uint8_t*"⟩,
    ⟨fun c => c.fullSchema || c.backgroundCollectionSupport,
      FieldDescriptor.field "background_saved_highest_address" "uint8_t*"⟩,
    ⟨fun c => (c.fullSchema || c.backgroundCollectionSupport) && (c.fullSchema || !c.regionBasedHeap),
      FieldDescriptor.dptrField "saved_sweep_ephemeral_seg" "dac_heap_segment"⟩,
    ⟨fun c => (c.fullSchema || c.backgroundCollectionSupport) && (c.fullSchema || !c.regionBasedHeap),
      FieldDescriptor.field "saved_sweep_ephemeral_start" "uint8_t*"⟩ ]

/-- C1. Ordinal invariance: the assembled field table has length
12 + 4 + 2 = 18 under every configuration of the three switches. -/
theorem ordinal_invariance (cfg : Configuration) :
    (gc_typefields cfg).length = 12 + 4 + 2 := by
  rcases cfg with ⟨a, b, r⟩
  cases a <;> cases b <;> cases r <;> decide

/-- C2 counterexample: with all three switches enabled, the two
region-dependent slots hold the real descriptors, not placeholders —
the inner guard `ALL_FIELDS or not USE_REGIONS` is satisfied by
`ALL_FIELDS` alone. -/
theorem regions_fields_real_under_full_schema :
    (gc_typefields ⟨true, true, true⟩).get? 16
      = some (FieldDescriptor.dptrField "saved_sweep_ephemeral_seg" "dac_heap_segment")
    ∧ (gc_typefields ⟨true, true, true⟩).get? 17
      = some (FieldDescriptor.field "saved_sweep_ephemeral_start" "uint8_t*")
    ∧ (gc_typefields ⟨true, true, true⟩).get? 16 ≠ some FieldDescriptor.missingField
    ∧ (gc_typefields ⟨true, true, true⟩).get? 17 ≠ some FieldDescriptor.missingField := by
  decide

/-- C2 amended: with all three switches enabled the table has the same
total slot count as with `regionBasedHeap = false` — indeed the two
tables are identical, the region-dependent fields staying real because
`fullSchema` satisfies the inner guard. -/
theorem full_schema_regions_same_table :
    (gc_typefields ⟨true, true, true⟩).length = (gc_typefields ⟨true, true, false⟩).length
    ∧ gc_typefields ⟨true, true, true⟩ = gc_typefields ⟨true, true, false⟩ := by
  decide

/-- C3 counterexample: with `fullSchema = true` and
`backgroundCollectionSupport = false`, the background slots are real
descriptors, not placeholders — the outer guard
`ALL_FIELDS or BACKGROUND_GC` is satisfied by `ALL_FIELDS` alone. -/
theorem background_fields_real_under_full_schema :
    (gc_typefields ⟨true, false, true⟩).get? 12
      = some (FieldDescriptor.field "mark_array" "uint32_t*")
    ∧ (gc_typefields ⟨true, false, true⟩).get? 12 ≠ some FieldDescriptor.missingField
    ∧ (gc_typefields ⟨true, false, false⟩).get? 12 ≠ some FieldDescriptor.missingField := by
  decide

/-- C3 amended: with `fullSchema = true` and
`backgroundCollectionSupport = false`, regardless of `regionBasedHeap`,
the four background-specific fields and the nested two region-dependent
fields are all emitted as real descriptors, and the total slot count
equals that of the background-enabled configurations. -/
theorem full_schema_no_background_all_real (r : Bool) :
    (gc_typefields ⟨true, false, r⟩).drop 12
      = [ FieldDescriptor.field "mark_array" "uint32_t*",
          FieldDescriptor.field "next_sweep_obj" "uint8_t*",
          FieldDescriptor.field "background_saved_lowest_address" "uint8_t*",
          FieldDescriptor.field "background_saved_highest_address" "uint8_t*",
          FieldDescriptor.dptrField "saved_sweep_ephemeral_seg" "dac_heap_segment",
          FieldDescriptor.field "saved_sweep_ephemeral_start" "uint8_t*" ]
    ∧ (gc_typefields ⟨true, false, r⟩).length = (gc_typefields ⟨true, true, r⟩).length := by
  cases r <;> decide

/-- C4. Nested-conditional slot balance: the conditional region
(slots 12 onward) contributes exactly 6 slots under every configuration;
when the outer background block is suppressed it emits 6 placeholders,
and when only the inner region branch is suppressed it emits 2
placeholders in the 2 nested slots. -/
theorem nested_conditional_slot_balance :
    (∀ cfg : Configuration, ((gc_typefields cfg).drop 12).length = 6)
    ∧ (∀ r : Bool, (gc_typefields ⟨false, false, r⟩).drop 12
        = List.replicate 6 FieldDescriptor.missingField)
    ∧ (gc_typefields ⟨false, true, true⟩).drop 16
        = List.replicate 2 FieldDescriptor.missingField
    ∧ ((gc_typefields ⟨false, true, false⟩).drop 16).length = 2 := by
  refine ⟨fun cfg => ?_, fun r => ?_, ?_, ?_⟩
  · rcases cfg with ⟨a, b, r⟩
    cases a <;> cases b <;> cases r <;> decide
  · cases r <;> decide
  · decide
  · decide

/-- C5. Placeholder completeness: under every resolved configuration the
assembled table is exactly the per-declaration emission — one descriptor
(the real one when the declaration's guard holds, otherwise one
placeholder) for each declaration of the source sequence, never zero and
never two. -/
theorem placeholder_completeness (cfg : Configuration) :
    gc_typefields cfg = assemblerDeclarations.map (emitDescriptor cfg)
    ∧ (gc_typefields cfg).length = assemblerDeclarations.length := by
  rcases cfg with ⟨a, b, r⟩
  cases a <;> cases b <;> cases r <;> exact ⟨rfl, rfl⟩

/-- C6. Positional identity: whenever ordinals `i` of configuration `A`'s
table and `j` of configuration `B`'s table both hold real descriptors
with the same field name, the ordinals coincide. -/
theorem positional_identity (A B : Configuration) (i j : Fin 18)
    (hA : realNameAt A i ≠ none)
    (hAB : realNameAt A i = realNameAt B j) :
    (i : Nat) = (j : Nat) := by
  rcases A with ⟨a1, b1, r1⟩
  rcases B with ⟨a2, b2, r2⟩
  revert hA hAB
  cases a1 <;> cases b1 <;> cases r1 <;> cases a2 <;> cases b2 <;> cases r2 <;>
    exact fun hA hAB => by revert hA hAB; revert i j; decide

/-- C6 witness: `mark_array` is real at ordinal 12 both in the
all-switches-on table and in the background-only table. -/
theorem positional_identity_witness :
    ((⟨12, by decide⟩ : Fin 18) : Nat) = ((⟨12, by decide⟩ : Fin 18) : Nat) :=
  positional_identity ⟨true, true, true⟩ ⟨false, true, false⟩
    ⟨12, by decide⟩ ⟨12, by decide⟩ (by decide) (by decide)

/-- C7. With `fullSchema = true`, `backgroundCollectionSupport = true`,
`regionBasedHeap = false`, the four background-specific fields and the
two legacy-segment region-dependent fields are all real descriptors. -/
theorem background_legacy_fields_real :
    (gc_typefields ⟨true, true, false⟩).drop 12
      = [ FieldDescriptor.field "mark_array" "uint32_t*",
          FieldDescriptor.field "next_sweep_obj" "uint8_t*",
          FieldDescriptor.field "background_saved_lowest_address" "uint8_t*",
          FieldDescriptor.field "background_saved_highest_address" "uint8_t*",
          FieldDescriptor.dptrField "saved_sweep_ephemeral_seg" "dac_heap_segment",
          FieldDescriptor.field "saved_sweep_ephemeral_start" "uint8_t*" ] := by
  decide

/-- C8. With `fullSchema = true` the assembled table is independent of
the other two switches: all 18 slots are real and no placeholder is
emitted, since every guard of the source has the form
`ALL_FIELDS or <condition>`. -/
theorem full_schema_table_fixed (b r : Bool) :
    gc_typefields ⟨true, b, r⟩ = gc_typefields ⟨true, true, false⟩
    ∧ (gc_typefields ⟨true, b, r⟩).length = 18
    ∧ FieldDescriptor.missingField ∉ gc_typefields ⟨true, b, r⟩ := by
  cases b <;> cases r <;> decide

/-- C9. Unconditional prefix stability: in every configuration, ordinals
0 through 11 hold the same twelve real descriptors, with the same names,
kinds, element types and array extents, in the same order. -/
theorem unconditional_prefix_stable (cfg : Configuration) :
    (gc_typefields cfg).take 12
      = [ FieldDescriptor.field "alloc_allocated" "uint8_t*",
          FieldDescriptor.dptrField "ephemeral_heap_segment" "dac_heap_segment",
          FieldDescriptor.dptrField "finalize_queue" "dac_finalize_queue",
          FieldDescriptor.field "oom_info" "oom_history",
          FieldDescriptor.arrayField "interesting_data_per_heap" "size_t" "NUM_GC_DATA_POINTS",
          FieldDescriptor.arrayField "compact_reasons_per_heap" "size_t" "MAX_COMPACT_REASONS_COUNT",
          FieldDescriptor.arrayField "expand_mechanisms_per_heap" "size_t" "MAX_EXPAND_MECHANISMS_COUNT",
          FieldDescriptor.arrayField "interesting_mechanism_bits_per_heap" "size_t" "MAX_GC_MECHANISM_BITS_COUNT",
          FieldDescriptor.field "internal_root_array" "uint8_t*",
          FieldDescriptor.field "internal_root_array_index" "size_t",
          FieldDescriptor.field "heap_analyze_success" "BOOL",
          FieldDescriptor.field "card_table" "uint32_t*" ] := by
  rcases cfg with ⟨a, b, r⟩
  cases a <;> cases b <;> cases r <;> decide

/-- C10. With `fullSchema` and `backgroundCollectionSupport` both
disabled, the `regionBasedHeap` switch has no effect: the two tables are
identical and all six conditional slots are placeholders, the region
conditional being nested inside the suppressed background block. -/
theorem regions_switch_inert_without_background :
    gc_typefields ⟨false, false, true⟩ = gc_typefields ⟨false, false, false⟩
    ∧ (gc_typefields ⟨false, false, true⟩).drop 12
        = List.replicate 6 FieldDescriptor.missingField := by
  decide
